import Mathlib

/-!
Verification development for the type-graph declaration synthesizer in
`gen_dtrace_helper.py`.  The Python program walks DWARF debug entities and
emits C declarations.  Below we give a shallow embedding of its data model
(`Node`), its entity lookup (`get_node`), the pure declarator generator
(`gen_decl`), the recursive synthesizer (`track`) and the per-symbol driver
(`explain`), translated branch by branch from the source.  Python exceptions
are modelled by the `PyErr` type; printing is modelled by returning the list
of printed lines; the in-place mutated `shown` dictionary is threaded
explicitly and is returned even on error, matching the persistence of
mutations past a raised exception.  Recursion is fuel-indexed; exhausting
fuel is the distinguished `PyErr.recursionErr` (Python's RecursionError).
-/

/-- Python exception model: `ParseError` (the only exception class defined and
caught by the program), `TypeError` (raised by `str + None` concatenations),
`NameError`/`UnboundLocalError` (raised by the bare `except:` blocks that
reference the unbound variable `e`), and `RecursionError` (fuel exhaustion). -/
inductive PyErr where
  | parse (msg : String)
  | typeErr (msg : String)
  | nameErr (msg : String)
  | recursionErr
deriving Repr, DecidableEq

/-- Lowercase hexadecimal digit, as produced by Python's format spec `x`. -/
def hexDigit (n : Nat) : Char :=
  match n with
  | 0 => '0' | 1 => '1' | 2 => '2' | 3 => '3' | 4 => '4'
  | 5 => '5' | 6 => '6' | 7 => '7' | 8 => '8' | 9 => '9'
  | 10 => 'a' | 11 => 'b' | 12 => 'c' | 13 => 'd' | 14 => 'e' | _ => 'f'

/-- Hex digit characters of `n` (most significant first); empty for `n = 0`.
The first argument is fuel; `fuel ≥ n` suffices since `n / 16 < n`. -/
def toHexChars : Nat → Nat → List Char
  | 0, _ => []
  | fuel + 1, n => if n = 0 then [] else toHexChars fuel (n / 16) ++ [hexDigit (n % 16)]

/-- Python's `f"{n:x}"` for a nonnegative integer `n`. -/
def hexStr (n : Nat) : String :=
  if n = 0 then "0" else String.mk (toHexChars n n)

/-- Value of a lowercase hex digit character (inverse of `hexDigit`). -/
def hexVal (c : Char) : Nat :=
  if c.toNat ≥ 97 then c.toNat - 87 else c.toNat - 48

/-- Big-endian hex decoding of a character list. -/
def decodeHex (l : List Char) : Nat :=
  l.foldl (fun a c => 16 * a + hexVal c) 0

/-- Python truthiness of an optional string: `None` and `""` are falsy. -/
def pyTruthy : Option String → Bool
  | none => false
  | some s => !(s == "")

/-- Python `f"{x}"` on an optional string: `None` prints as `"None"`. -/
def pyShowOpt : Option String → String
  | none => "None"
  | some s => s

/-- Python `f"{x}"` on an optional integer: `None` prints as `"None"`. -/
def pyShowOptInt : Option Int → String
  | none => "None"
  | some i => toString i

/-- One DWARF debug entity, after `build_node` in the source: tag string,
global offset, optional (validated) name, nickname, type reference, flags,
layout numbers, dependent children offsets and array/enumerator quantity. -/
structure Node where
  tag : String
  offset : Nat
  name : Option String := none
  nickname : Option String := none
  type_goff : Option Nat := none
  is_decl : Bool := false
  decl_file : Option String := none
  decl_line : Option Nat := none
  data_member_location : Option Nat := none
  byte_size : Option Nat := none
  bit_size : Option Nat := none
  bit_offset : Option Nat := none
  deps : List Nat := []
  quantity : Option Int := none
deriving Repr, DecidableEq

/-- `Node.src_location` from the source: `"_nowhere_"` when the file is
unknown, with a `:line` suffix when the line is known. -/
def src_location (nd : Node) : String :=
  let decl_file := nd.decl_file.getD "_nowhere_"
  match nd.decl_line with
  | some l => decl_file ++ ":" ++ toString l
  | none => decl_file

/-- The `TAGS_for_types` class dictionary: tag → optional C keyword. -/
def TAGS_for_types : List (String × Option String) :=
  [("DW_TAG_array_type", none),
   ("DW_TAG_enumeration_type", some "enum"),
   ("DW_TAG_structure_type", some "struct"),
   ("DW_TAG_class_type", some "/*<class>*/struct"),
   ("DW_TAG_typedef", some "typedef"),
   ("DW_TAG_union_type", some "union"),
   ("DW_TAG_subprogram", none)]

/-- The `TAGS_for_qualifiers` class dictionary: qualifier tag → C keyword. -/
def TAGS_for_qualifiers : List (String × String) :=
  [("DW_TAG_const_type", "const"),
   ("DW_TAG_volatile_type", "volatile"),
   ("DW_TAG_restrict_type", "restrict"),
   ("DW_TAG_atomic_type", "_Atomic")]

/-- Dictionary lookup modelling Python's `dict.get` on a string key. -/
def lookupTag (d : List (String × Option String)) (k : String) : Option (Option String) :=
  match d with
  | [] => none
  | (k', v) :: t => if k' = k then some v else lookupTag t k

/-- Dictionary lookup for the qualifier table. -/
def lookupQual (d : List (String × String)) (k : String) : Option String :=
  match d with
  | [] => none
  | (k', v) :: t => if k' = k then some v else lookupQual t k

/-- A character allowed by the `badchars` regex character class
`[A-Za-z0-9_ ]` of the source. -/
def goodChar (c : Char) : Bool :=
  ('A' ≤ c && c ≤ 'Z') || ('a' ≤ c && c ≤ 'z') || ('0' ≤ c && c ≤ '9') ||
    c = '_' || c = ' '

/-- `TypeDG.is_invalid_name`: the regex `.*[^A-Za-z0-9_ ]` matches (at the
start of the string) exactly when some character falls outside the class. -/
def is_invalid_name (name : String) : Bool :=
  name.data.any (fun c => !goodChar c)

/-- The name validation step of `build_node`: a truthy name containing an
illegal character is replaced by `None`. -/
def build_name (rawName : Option String) : Option String :=
  if pyTruthy rawName && is_invalid_name (rawName.getD "") then none else rawName

/-- `gen_nickname` from `build_node`: a truthy name is kept; otherwise a
synthetic name is derived from the tag's keyword and the entity offset, and
tags with no keyword in `TAGS_for_types` get `None`. -/
def gen_nickname (tag : String) (name : Option String) (offset : Nat) : Option String :=
  if pyTruthy name then name
  else
    match (lookupTag TAGS_for_types tag).join with
    | none => none
    | some keyword => some ("anon_" ++ keyword ++ "__GOFF0x" ++ hexStr offset)

/-- The entity table `offset_to_node`, iterated in insertion order. -/
abbrev NodeTable := List Node

/-- `TypeDG.get_node`: `None` means `void`; a dangling offset raises
`ParseError`. -/
def get_node (tbl : NodeTable) (goff : Option Nat) : Except PyErr (Option Node) :=
  match goff with
  | none => .ok none
  | some g =>
    match tbl.find? (fun nd => nd.offset = g) with
    | some nd => .ok (some nd)
    | none => .error (.parse ("no node for GOFF=0x" ++ hexStr g))

/-- `TypeDG.gen_decl`, branch for branch from the source.  The first `Nat`
argument is recursion fuel.  Python returns for a `DW_TAG_base_type` with a
falsy inner declarator the raw `node.name`; when that name is `None` every
caller of `gen_decl` goes on to concatenate or join the result with strings,
raising `TypeError`, so the nameless-base case is modelled as the
`TypeError` directly.  All other `str + None` concatenations of the source
(`name` is `None` in the subroutine, array and qualifier branches; a `None`
nickname in the keyword branch) are modelled at the exact evaluation point
where Python raises. -/
def gen_decl (tbl : NodeTable) : Nat → Option Node → Option String → Except PyErr String
  | 0, _, _ => .error .recursionErr
  | _ + 1, none, name =>
    match name with
    | none => .ok "void"
    | some n => .ok ("void " ++ n)
  | fuel + 1, some nd, name =>
    if nd.tag = "DW_TAG_base_type" then
      match nd.name with
      | none => .error (.typeErr "can only concatenate str (not \"NoneType\") to str")
      | some bn => if pyTruthy name then .ok (bn ++ " " ++ name.getD "") else .ok bn
    else if nd.tag = "DW_TAG_pointer_type" then
      match get_node tbl nd.type_goff with
      | .error e => .error e
      | .ok dep => gen_decl tbl fuel dep (some ("*" ++ name.getD ""))
    else if nd.tag = "DW_TAG_reference_type" then
      match get_node tbl nd.type_goff with
      | .error e => .error e
      | .ok dep => gen_decl tbl fuel dep (some ("/*<&>*/" ++ name.getD ""))
    else if nd.tag = "DW_TAG_rvalue_reference_type" then
      match get_node tbl nd.type_goff with
      | .error e => .error e
      | .ok dep => gen_decl tbl fuel dep (some ("/*<&&>*/" ++ name.getD ""))
    else if nd.tag = "DW_TAG_subroutine_type" then
      let r := nd.deps.foldl
        (fun (acc : Except PyErr (List String)) cg =>
          match acc with
          | .error e => .error e
          | .ok fparams =>
            match get_node tbl (some cg) with
            | .error e => .error e
            | .ok none => .error (.typeErr "NoneType has no attribute type_goff")
            | .ok (some child) =>
              match get_node tbl child.type_goff with
              | .error e => .error e
              | .ok ptype =>
                match gen_decl tbl fuel ptype none with
                | .error e => .error e
                | .ok d => .ok (fparams ++ [d]))
        (.ok [])
      match r with
      | .error e => .error e
      | .ok fparams0 =>
        let fparams := if fparams0.isEmpty then ["void"] else fparams0
        match get_node tbl nd.type_goff with
        | .error e => .error e
        | .ok rdep =>
          match gen_decl tbl fuel rdep none with
          | .error e => .error e
          | .ok rd =>
            match name with
            | none => .error (.typeErr "can only concatenate str (not \"NoneType\") to str")
            | some nm =>
              .ok (rd ++ " (" ++ nm ++ ")(" ++ String.intercalate ", " fparams ++ ")")
    else if nd.tag = "DW_TAG_array_type" then
      let sfx := match nd.quantity with
        | none => "[]"
        | some q => "[" ++ toString q ++ "]"
      match get_node tbl nd.type_goff with
      | .error e => .error e
      | .ok dep =>
        match gen_decl tbl fuel dep none with
        | .error e => .error e
        | .ok ed =>
          match name with
          | none => .error (.typeErr "can only concatenate str (not \"NoneType\") to str")
          | some nm => .ok (ed ++ " " ++ nm ++ sfx)
    else if (lookupQual TAGS_for_qualifiers nd.tag).isSome then
      let pfx := if nd.tag = "DW_TAG_restrict_type" then ""
        else (lookupQual TAGS_for_qualifiers nd.tag).getD "" ++ " "
      match get_node tbl nd.type_goff with
      | .error e => .error e
      | .ok dep =>
        match name with
        | none => .error (.typeErr "can only concatenate str (not \"NoneType\") to str")
        | some nm => gen_decl tbl fuel dep (some (pfx ++ nm))
    else if (lookupTag TAGS_for_types nd.tag).join.isSome then
      let keyword := (lookupTag TAGS_for_types nd.tag).join.getD ""
      let pfx := if keyword = "typedef" then "" else keyword ++ " "
      let sfx := if pyTruthy name then " " ++ name.getD "" else ""
      match nd.nickname with
      | none => .error (.typeErr "can only concatenate str (not \"NoneType\") to str")
      | some nick => .ok (pfx ++ nick ++ sfx)
    else .error (.parse ("cannot generate decl. for " ++ nd.tag))

/-- The `shown` emission-status dictionary: key (a nickname, a
`"typedef "`-prefixed nickname, or an enumerator name; `none` models a
Python `None` key) → `"declared"` or `"defined"`. -/
abbrev Shown := List (Option String × String)

/-- Python `shown.get(k)`. -/
def lookupShown (sh : Shown) (k : Option String) : Option String :=
  match sh with
  | [] => none
  | (k', v) :: t => if k' = k then some v else lookupShown t k

/-- Python `shown[k] = v` (update in place, append if absent). -/
def setShown (sh : Shown) (k : Option String) (v : String) : Shown :=
  match sh with
  | [] => [(k, v)]
  | (k', v') :: t => if k' = k then (k, v) :: t else (k', v') :: setShown t k v

/-- Result of one `track` call: the lines printed so far, the `shown`
dictionary (mutations persist even when an exception is raised), and the
normal/exceptional outcome. -/
abbrev TrackRes := List String × Shown × Except PyErr Unit

/-- Python `except ParseError as e: raise ParseError(pfx + str(e))`: only a
`ParseError` is wrapped, any other exception propagates unchanged. -/
def wrapParse (pfx : String) : PyErr → PyErr
  | .parse m => .parse (pfx ++ m)
  | e => e

/-- `TypeDG.track`, branch for branch from the source.  The `stk` argument is
the `stack` parameter *before* the `stack = stack + [node]` append of the
source, so the source's `node in stack[:-1]` is `nd ∈ stk`, its
`len(stack) > 1` is `stk ≠ []`, its `stack[-2]` is `stk.getLast?`, and the
recursive calls receive `stk ++ [nd]`.  The bare `except:` blocks of the
reference branches re-raise via the unbound variable `e`, which in Python
raises `UnboundLocalError` (a `NameError`); the typedef branch's
`"typedef " + node.nickname` and the struct branches' `gen_decl` raise
`TypeError` on a `None` nickname.  The truthiness test `if cur:` of the
typedef branch is modelled as `isSome` (the stored values `"declared"` and
`"defined"` are never falsy). -/
def track (tbl : NodeTable) : Nat → Option Node → Shown → List Node → Bool → TrackRes
  | 0, _, sh, _, _ => ([], sh, .error .recursionErr)
  | _ + 1, none, sh, _, _ => ([], sh, .ok ())
  | fuel + 1, some nd, sh, stk, maybe_incomplete =>
    if nd.tag = "DW_TAG_base_type" then ([], sh, .ok ())
    else if nd.tag = "DW_TAG_pointer_type" then
      match get_node tbl nd.type_goff with
      | .error e => ([], sh, .error (wrapParse "pointer -> " e))
      | .ok dep =>
        match track tbl fuel dep sh stk true with
        | (out, sh2, .error e) => (out, sh2, .error (wrapParse "pointer -> " e))
        | r => r
    else if nd.tag = "DW_TAG_array_type" then
      match get_node tbl nd.type_goff with
      | .error e => ([], sh, .error e)
      | .ok elemtype => track tbl fuel elemtype sh stk false
    else if nd.tag = "DW_TAG_reference_type" then
      match get_node tbl nd.type_goff with
      | .error e => ([], sh, .error e)
      | .ok dep =>
        match track tbl fuel dep sh stk false with
        | (out, sh2, .error _) =>
          (out, sh2, .error (.nameErr "local variable 'e' referenced before assignment"))
        | r => r
    else if nd.tag = "DW_TAG_rvalue_reference_type" then
      match get_node tbl nd.type_goff with
      | .error e => ([], sh, .error e)
      | .ok dep =>
        match track tbl fuel dep sh stk false with
        | (out, sh2, .error _) =>
          (out, sh2, .error (.nameErr "local variable 'e' referenced before assignment"))
        | r => r
    else if (lookupQual TAGS_for_qualifiers nd.tag).isSome then
      match get_node tbl nd.type_goff with
      | .error e => ([], sh, .error (wrapParse "qual -> " e))
      | .ok dep =>
        match track tbl fuel dep sh stk false with
        | (out, sh2, .error e) => (out, sh2, .error (wrapParse "qual -> " e))
        | r => r
    else if nd.tag = "DW_TAG_subprogram" ∨ nd.tag = "DW_TAG_subroutine_type" then
      match get_node tbl nd.type_goff with
      | .error e => ([], sh, .error e)
      | .ok rdep =>
        match track tbl fuel rdep sh stk false with
        | (out, sh2, .error e) => (out, sh2, .error e)
        | (out, sh2, .ok _) =>
          nd.deps.foldl
            (fun (acc : TrackRes) cg =>
              match acc with
              | (o, s, .error e) => (o, s, .error e)
              | (o, s, .ok _) =>
                match get_node tbl (some cg) with
                | .error e => (o, s, .error e)
                | .ok none => (o, s, .error (.typeErr "NoneType has no attribute tag"))
                | .ok (some child) =>
                  if child.tag = "DW_TAG_formal_parameter" then
                    match get_node tbl child.type_goff with
                    | .error e => (o, s, .error (wrapParse "formal-parameter -> " e))
                    | .ok ptype =>
                      match track tbl fuel ptype s (stk) false with
                      | (o2, s2, .error e) =>
                        (o ++ o2, s2, .error (wrapParse "formal-parameter -> " e))
                      | (o2, s2, .ok _) => (o ++ o2, s2, .ok ())
                  else (o, s, .ok ()))
            (out, sh2, .ok ())
    else if nd.tag = "DW_TAG_typedef" then
      match nd.nickname with
      | none => ([], sh, .error (.typeErr "can only concatenate str (not \"NoneType\") to str"))
      | some nick =>
        let key : Option String := some ("typedef " ++ nick)
        if (lookupShown sh key).isSome then ([], sh, .ok ())
        else
          match get_node tbl nd.type_goff with
          | .error e => ([], sh, .error e)
          | .ok dep =>
            match track tbl fuel dep sh (stk ++ [nd]) false with
            | (out, sh2, .error e) => (out, sh2, .error (wrapParse "typedef -> " e))
            | (out, sh2, .ok _) =>
              let orig := match dep with
                | some d => "GOFF0x" ++ hexStr d.offset
                | none => "(none?)"
              let line1 := "\n/*  GOFF0x" ++ hexStr nd.offset ++ " @ " ++ src_location nd ++
                ", define " ++ orig ++ " as '" ++ nick ++ "' */"
              match gen_decl tbl fuel dep (some nick) with
              | .error e => (out ++ [line1], sh2, .error e)
              | .ok d =>
                (out ++ [line1, "typedef " ++ d ++ ";"], setShown sh2 key "defined", .ok ())
    else if nd.tag = "DW_TAG_structure_type" ∨ nd.tag = "DW_TAG_class_type" ∨
        nd.tag = "DW_TAG_union_type" then
      let key := nd.nickname
      let cur := lookupShown sh key
      if cur = some "defined" then ([], sh, .ok ())
      else if nd ∈ stk ∨ ((maybe_incomplete = true ∨ nd.is_decl = true) ∧ cur = none) then
        let sfx := ";" ++ (match stk.getLast? with
          | some p => "/* for GOFF0x" ++ hexStr p.offset ++ " " ++ pyShowOpt p.nickname ++ " */"
          | none => "")
        match gen_decl tbl fuel (some nd) none with
        | .error e => ([], sh, .error e)
        | .ok d => ([d ++ sfx], setShown sh key "declared", .ok ())
      else
        let r := nd.deps.foldl
          (fun (acc : List String × TrackRes) cg =>
            match acc with
            | (ms, o, s, .error e) => (ms, o, s, .error e)
            | (ms, o, s, .ok _) =>
              match get_node tbl (some cg) with
              | .error e => (ms, o, s, .error e)
              | .ok none => (ms, o, s, .error (.typeErr "NoneType has no attribute type_goff"))
              | .ok (some child) =>
                match get_node tbl child.type_goff with
                | .error e => (ms, o, s, .error e)
                | .ok none =>
                  (ms, o, s, .error (.parse ("failed to get " ++ pyShowOpt child.nickname ++
                    "'s type")))
                | .ok (some mtype) =>
                  let mloc := child.data_member_location.getD 0
                  let notes := ["loc=0x" ++ hexStr mloc] ++ (match child.bit_offset with
                    | some b => ["bitoff=0x" ++ hexStr b]
                    | none => [])
                  let mname := if pyTruthy child.name then child.name.getD ""
                    else "unnamed" ++ toString ms.length ++ "__off0x" ++ hexStr mloc
                  match track tbl fuel (some mtype) s (stk ++ [nd]) false with
                  | (o2, s2, .error e) =>
                    (ms, o ++ o2, s2, .error (match e with
                      | .parse m => .parse ("failed to track a member " ++ mtype.tag ++
                          " '" ++ mname ++ "' " ++ m)
                      | e2 => e2))
                  | (o2, s2, .ok _) =>
                    let mname2 := match child.bit_size with
                      | some b => mname ++ ":" ++ toString b
                      | none => mname
                    match gen_decl tbl fuel (some mtype) (some mname2) with
                    | .error e => (ms, o ++ o2, s2, .error e)
                    | .ok md =>
                      (ms ++ ["\t" ++ md ++ ";\t/* " ++ String.intercalate ", " notes ++ " */"],
                        o ++ o2, s2, .ok ()))
          ([], [], sh, .ok ())
        match r with
        | (_, o, s, .error e) => (o, s, .error e)
        | (ms, o, s, .ok _) =>
          let line1 := "\n/* GOFF0x" ++ hexStr nd.offset ++ " @ " ++ src_location nd ++ " */"
          let notes := match nd.byte_size with
            | some b => ["size=0x" ++ hexStr b]
            | none => []
          match gen_decl tbl fuel (some nd) none with
          | .error e => (o ++ [line1], s, .error e)
          | .ok d =>
            let openLine := d ++ " \x7b" ++
              (if notes.isEmpty then "" else "\t/* " ++ String.intercalate " " notes ++ " */")
            let body := if ms.isEmpty then
                match nd.byte_size with
                | some b => ["\tchar dummy[0x" ++ hexStr b ++ "];"]
                | none => []
              else ms
            (o ++ [line1, openLine] ++ body ++ ["\x7d;"], setShown s key "defined", .ok ())
    else if nd.tag = "DW_TAG_enumeration_type" then
      let key := nd.nickname
      if (lookupShown sh key).isSome then ([], sh, .ok ())
      else
        let r := nd.deps.foldl
          (fun (acc : List String × Shown × Except PyErr Unit) cg =>
            match acc with
            | (ms, s, .error e) => (ms, s, .error e)
            | (ms, s, .ok _) =>
              match get_node tbl (some cg) with
              | .error e => (ms, s, .error e)
              | .ok none => (ms, s, .error (.typeErr "NoneType has no attribute name"))
              | .ok (some child) =>
                let cname : Option String :=
                  if (lookupShown s child.name).isSome then
                    some (pyShowOpt child.name ++ "__GOFF0x" ++ hexStr nd.offset)
                  else child.name
                (ms ++ ["\t" ++ pyShowOpt cname ++ " = " ++ pyShowOptInt child.quantity],
                  setShown s cname "defined", .ok ()))
          ([], sh, .ok ())
        match r with
        | (_, s, .error e) => ([], s, .error e)
        | (ms, s, .ok _) =>
          let line1 := "\n/* GOFF0x" ++ hexStr nd.offset ++ " @ " ++ src_location nd ++ " */"
          match gen_decl tbl fuel (some nd) none with
          | .error e => ([line1], s, .error e)
          | .ok d =>
            ([line1, d ++ " \x7b", String.intercalate ",\n" ms, "\x7d;"],
              setShown s key "defined", .ok ())
    else ([], sh, .error (.parse ("incompatible tag: " ++ nd.tag)))

/-- The skip notice printed by `explain` when a symbol's synthesis raises
`ParseError`. -/
def skipLine (nd : Node) (msg : String) : String :=
  "/* skipped GOFF=0x" ++ hexStr nd.offset ++ " " ++ nd.tag ++ " '" ++
    pyShowOpt nd.nickname ++ "' at " ++ src_location nd ++ ": " ++ msg ++ " */"

/-- `TypeDG.explain`: one fresh `shown` map for the whole pass; every entity
whose tag is a key of `TAGS_for_types` and which passes the checker is
tracked; a `ParseError` is caught per symbol (a skip notice is printed and
the loop continues with the mutated `shown`); any other exception aborts the
whole pass.  Returns the printed lines and the outcome. -/
def explain (tbl : NodeTable) (fuel : Nat) (checker : Node → Bool) :
    List String × Except PyErr Unit :=
  let r := tbl.foldl
    (fun (acc : List String × Shown × Except PyErr Unit) nd =>
      match acc with
      | (out, sh, .error e) => (out, sh, .error e)
      | (out, sh, .ok _) =>
        if (lookupTag TAGS_for_types nd.tag).isSome then
          if checker nd then
            match track tbl fuel (some nd) sh [] false with
            | (out2, sh2, .ok _) => (out ++ out2, sh2, .ok ())
            | (out2, sh2, .error (.parse m)) =>
              (out ++ out2 ++ [skipLine nd m], sh2, .ok ())
            | (out2, sh2, .error e) => (out ++ out2, sh2, .error e)
          else (out, sh, .ok ())
        else (out, sh, .ok ()))
    ([], [], .ok ())
  (r.1, r.2.2)

/-- Variant of `track` that follows the specification's wording for the
composite branch: the entity is recorded as fully-defined in the
emission-status map *before* the traversal recurses into its members
("mark it fully-defined before recursing into members"), everything else
unchanged.  It exists only to be compared against `track`, which instead
records the definition after emitting it. -/
def trackSpecEarlyMark (tbl : NodeTable) : Nat → Option Node → Shown → List Node → Bool → TrackRes
  | 0, _, sh, _, _ => ([], sh, .error .recursionErr)
  | _ + 1, none, sh, _, _ => ([], sh, .ok ())
  | fuel + 1, some nd, sh, stk, maybe_incomplete =>
    if nd.tag = "DW_TAG_base_type" then ([], sh, .ok ())
    else if nd.tag = "DW_TAG_pointer_type" then
      match get_node tbl nd.type_goff with
      | .error e => ([], sh, .error (wrapParse "pointer -> " e))
      | .ok dep =>
        match trackSpecEarlyMark tbl fuel dep sh stk true with
        | (out, sh2, .error e) => (out, sh2, .error (wrapParse "pointer -> " e))
        | r => r
    else if nd.tag = "DW_TAG_array_type" then
      match get_node tbl nd.type_goff with
      | .error e => ([], sh, .error e)
      | .ok elemtype => trackSpecEarlyMark tbl fuel elemtype sh stk false
    else if nd.tag = "DW_TAG_reference_type" then
      match get_node tbl nd.type_goff with
      | .error e => ([], sh, .error e)
      | .ok dep =>
        match trackSpecEarlyMark tbl fuel dep sh stk false with
        | (out, sh2, .error _) =>
          (out, sh2, .error (.nameErr "local variable 'e' referenced before assignment"))
        | r => r
    else if nd.tag = "DW_TAG_rvalue_reference_type" then
      match get_node tbl nd.type_goff with
      | .error e => ([], sh, .error e)
      | .ok dep =>
        match trackSpecEarlyMark tbl fuel dep sh stk false with
        | (out, sh2, .error _) =>
          (out, sh2, .error (.nameErr "local variable 'e' referenced before assignment"))
        | r => r
    else if (lookupQual TAGS_for_qualifiers nd.tag).isSome then
      match get_node tbl nd.type_goff with
      | .error e => ([], sh, .error (wrapParse "qual -> " e))
      | .ok dep =>
        match trackSpecEarlyMark tbl fuel dep sh stk false with
        | (out, sh2, .error e) => (out, sh2, .error (wrapParse "qual -> " e))
        | r => r
    else if nd.tag = "DW_TAG_subprogram" ∨ nd.tag = "DW_TAG_subroutine_type" then
      match get_node tbl nd.type_goff with
      | .error e => ([], sh, .error e)
      | .ok rdep =>
        match trackSpecEarlyMark tbl fuel rdep sh stk false with
        | (out, sh2, .error e) => (out, sh2, .error e)
        | (out, sh2, .ok _) =>
          nd.deps.foldl
            (fun (acc : TrackRes) cg =>
              match acc with
              | (o, s, .error e) => (o, s, .error e)
              | (o, s, .ok _) =>
                match get_node tbl (some cg) with
                | .error e => (o, s, .error e)
                | .ok none => (o, s, .error (.typeErr "NoneType has no attribute tag"))
                | .ok (some child) =>
                  if child.tag = "DW_TAG_formal_parameter" then
                    match get_node tbl child.type_goff with
                    | .error e => (o, s, .error (wrapParse "formal-parameter -> " e))
                    | .ok ptype =>
                      match trackSpecEarlyMark tbl fuel ptype s (stk) false with
                      | (o2, s2, .error e) =>
                        (o ++ o2, s2, .error (wrapParse "formal-parameter -> " e))
                      | (o2, s2, .ok _) => (o ++ o2, s2, .ok ())
                  else (o, s, .ok ()))
            (out, sh2, .ok ())
    else if nd.tag = "DW_TAG_typedef" then
      match nd.nickname with
      | none => ([], sh, .error (.typeErr "can only concatenate str (not \"NoneType\") to str"))
      | some nick =>
        let key : Option String := some ("typedef " ++ nick)
        if (lookupShown sh key).isSome then ([], sh, .ok ())
        else
          match get_node tbl nd.type_goff with
          | .error e => ([], sh, .error e)
          | .ok dep =>
            match trackSpecEarlyMark tbl fuel dep sh (stk ++ [nd]) false with
            | (out, sh2, .error e) => (out, sh2, .error (wrapParse "typedef -> " e))
            | (out, sh2, .ok _) =>
              let orig := match dep with
                | some d => "GOFF0x" ++ hexStr d.offset
                | none => "(none?)"
              let line1 := "\n/*  GOFF0x" ++ hexStr nd.offset ++ " @ " ++ src_location nd ++
                ", define " ++ orig ++ " as '" ++ nick ++ "' */"
              match gen_decl tbl fuel dep (some nick) with
              | .error e => (out ++ [line1], sh2, .error e)
              | .ok d =>
                (out ++ [line1, "typedef " ++ d ++ ";"], setShown sh2 key "defined", .ok ())
    else if nd.tag = "DW_TAG_structure_type" ∨ nd.tag = "DW_TAG_class_type" ∨
        nd.tag = "DW_TAG_union_type" then
      let key := nd.nickname
      let cur := lookupShown sh key
      if cur = some "defined" then ([], sh, .ok ())
      else if nd ∈ stk ∨ ((maybe_incomplete = true ∨ nd.is_decl = true) ∧ cur = none) then
        let sfx := ";" ++ (match stk.getLast? with
          | some p => "/* for GOFF0x" ++ hexStr p.offset ++ " " ++ pyShowOpt p.nickname ++ " */"
          | none => "")
        match gen_decl tbl fuel (some nd) none with
        | .error e => ([], sh, .error e)
        | .ok d => ([d ++ sfx], setShown sh key "declared", .ok ())
      else
        let r := nd.deps.foldl
          (fun (acc : List String × TrackRes) cg =>
            match acc with
            | (ms, o, s, .error e) => (ms, o, s, .error e)
            | (ms, o, s, .ok _) =>
              match get_node tbl (some cg) with
              | .error e => (ms, o, s, .error e)
              | .ok none => (ms, o, s, .error (.typeErr "NoneType has no attribute type_goff"))
              | .ok (some child) =>
                match get_node tbl child.type_goff with
                | .error e => (ms, o, s, .error e)
                | .ok none =>
                  (ms, o, s, .error (.parse ("failed to get " ++ pyShowOpt child.nickname ++
                    "'s type")))
                | .ok (some mtype) =>
                  let mloc := child.data_member_location.getD 0
                  let notes := ["loc=0x" ++ hexStr mloc] ++ (match child.bit_offset with
                    | some b => ["bitoff=0x" ++ hexStr b]
                    | none => [])
                  let mname := if pyTruthy child.name then child.name.getD ""
                    else "unnamed" ++ toString ms.length ++ "__off0x" ++ hexStr mloc
                  match trackSpecEarlyMark tbl fuel (some mtype) s (stk ++ [nd]) false with
                  | (o2, s2, .error e) =>
                    (ms, o ++ o2, s2, .error (match e with
                      | .parse m => .parse ("failed to track a member " ++ mtype.tag ++
                          " '" ++ mname ++ "' " ++ m)
                      | e2 => e2))
                  | (o2, s2, .ok _) =>
                    let mname2 := match child.bit_size with
                      | some b => mname ++ ":" ++ toString b
                      | none => mname
                    match gen_decl tbl fuel (some mtype) (some mname2) with
                    | .error e => (ms, o ++ o2, s2, .error e)
                    | .ok md =>
                      (ms ++ ["\t" ++ md ++ ";\t/* " ++ String.intercalate ", " notes ++ " */"],
                        o ++ o2, s2, .ok ()))
          ([], [], setShown sh key "defined", .ok ())
        match r with
        | (_, o, s, .error e) => (o, s, .error e)
        | (ms, o, s, .ok _) =>
          let line1 := "\n/* GOFF0x" ++ hexStr nd.offset ++ " @ " ++ src_location nd ++ " */"
          let notes := match nd.byte_size with
            | some b => ["size=0x" ++ hexStr b]
            | none => []
          match gen_decl tbl fuel (some nd) none with
          | .error e => (o ++ [line1], s, .error e)
          | .ok d =>
            let openLine := d ++ " \x7b" ++
              (if notes.isEmpty then "" else "\t/* " ++ String.intercalate " " notes ++ " */")
            let body := if ms.isEmpty then
                match nd.byte_size with
                | some b => ["\tchar dummy[0x" ++ hexStr b ++ "];"]
                | none => []
              else ms
            (o ++ [line1, openLine] ++ body ++ ["\x7d;"], setShown s key "defined", .ok ())
    else if nd.tag = "DW_TAG_enumeration_type" then
      let key := nd.nickname
      if (lookupShown sh key).isSome then ([], sh, .ok ())
      else
        let r := nd.deps.foldl
          (fun (acc : List String × Shown × Except PyErr Unit) cg =>
            match acc with
            | (ms, s, .error e) => (ms, s, .error e)
            | (ms, s, .ok _) =>
              match get_node tbl (some cg) with
              | .error e => (ms, s, .error e)
              | .ok none => (ms, s, .error (.typeErr "NoneType has no attribute name"))
              | .ok (some child) =>
                let cname : Option String :=
                  if (lookupShown s child.name).isSome then
                    some (pyShowOpt child.name ++ "__GOFF0x" ++ hexStr nd.offset)
                  else child.name
                (ms ++ ["\t" ++ pyShowOpt cname ++ " = " ++ pyShowOptInt child.quantity],
                  setShown s cname "defined", .ok ()))
          ([], sh, .ok ())
        match r with
        | (_, s, .error e) => ([], s, .error e)
        | (ms, s, .ok _) =>
          let line1 := "\n/* GOFF0x" ++ hexStr nd.offset ++ " @ " ++ src_location nd ++ " */"
          match gen_decl tbl fuel (some nd) none with
          | .error e => ([line1], s, .error e)
          | .ok d =>
            ([line1, d ++ " \x7b", String.intercalate ",\n" ms, "\x7d;"],
              setShown s key "defined", .ok ())
    else ([], sh, .error (.parse ("incompatible tag: " ++ nd.tag)))

/-! Concrete entity tables used by the claim theorems.  Each models the
DWARF shape named in the corresponding claim. -/

/-- Cyclic scenario: `struct S` whose single member has type `S*`.  The
struct's nickname and byte size are parameters. -/
def C1struct (nick : String) (bs : Nat) : Node :=
  { tag := "DW_TAG_structure_type", offset := 1, name := some nick,
    nickname := some nick, byte_size := some bs, deps := [2] }

/-- The member `next` of the cyclic struct, of type `GOFF 3` (the pointer). -/
def C1member : Node :=
  { tag := "DW_TAG_member", offset := 2, name := some "next",
    nickname := some "next", type_goff := some 3, data_member_location := some 0 }

/-- The pointer back to the cyclic struct at `GOFF 1`. -/
def C1ptr : Node :=
  { tag := "DW_TAG_pointer_type", offset := 3, type_goff := some 1 }

/-- Entity table for the pointer-cycle scenario. -/
def C1tbl (nick : String) (bs : Nat) : NodeTable := [C1struct nick bs, C1member, C1ptr]

/-- Degenerate scenario: `struct S` whose member has type `S` itself (by
value), distinguishing mark-before-members from mark-after-emission. -/
def C2struct : Node :=
  { tag := "DW_TAG_structure_type", offset := 1, name := some "S",
    nickname := some "S", byte_size := some 4, deps := [2] }

/-- The self-typed member `m` of `C2struct`. -/
def C2member : Node :=
  { tag := "DW_TAG_member", offset := 2, name := some "m",
    nickname := some "m", type_goff := some 1 }

/-- Entity table for the by-value self-member scenario. -/
def C2tbl : NodeTable := [C2struct, C2member]

/-- Typedef whose target is a C++ reference to a pointer with a dangling
target: tracking the reference's dependency fails, and the bare `except:`
of the reference branch turns that failure into an `UnboundLocalError`. -/
def C3typedef : Node :=
  { tag := "DW_TAG_typedef", offset := 1, name := some "T", nickname := some "T",
    type_goff := some 2 }

/-- The reference node of the C3 scenario. -/
def C3ref : Node :=
  { tag := "DW_TAG_reference_type", offset := 2, type_goff := some 3 }

/-- The pointer node of the C3 scenario, with dangling target `GOFF 999`. -/
def C3ptr : Node :=
  { tag := "DW_TAG_pointer_type", offset := 3, type_goff := some 999 }

/-- A healthy struct processed after the failing symbol. -/
def C3ok : Node :=
  { tag := "DW_TAG_structure_type", offset := 4, name := some "A", nickname := some "A",
    byte_size := some 4 }

/-- Table whose first symbol aborts the whole `explain` pass. -/
def C3tbl : NodeTable := [C3typedef, C3ref, C3ptr, C3ok]

/-- Struct whose member's type is a pointer with a dangling target: the
member failure is wrapped (`member` and `pointer` context) and caught. -/
def C3bstruct : Node :=
  { tag := "DW_TAG_structure_type", offset := 1, name := some "B", nickname := some "B",
    byte_size := some 8, deps := [2] }

/-- The member `p` of `C3bstruct`. -/
def C3bmember : Node :=
  { tag := "DW_TAG_member", offset := 2, name := some "p", nickname := some "p",
    type_goff := some 3 }

/-- The dangling pointer of the contrast scenario. -/
def C3bptr : Node :=
  { tag := "DW_TAG_pointer_type", offset := 3, type_goff := some 999 }

/-- Table on which the per-symbol handler works as specified: `B` is
skipped with context, `A` is still emitted. -/
def C3btbl : NodeTable := [C3bstruct, C3bmember, C3bptr, C3ok]

/-- Base type `int`. -/
def C4int : Node := { tag := "DW_TAG_base_type", offset := 1, name := some "int" }

/-- Array of 5 `int`. -/
def C4arr : Node :=
  { tag := "DW_TAG_array_type", offset := 2, type_goff := some 1, quantity := some 5 }

/-- Pointer to array of 5 `int`. -/
def C4ptrArr : Node :=
  { tag := "DW_TAG_pointer_type", offset := 3, type_goff := some 2 }

/-- Subroutine type returning `int` with no parameters. -/
def C4subr : Node :=
  { tag := "DW_TAG_subroutine_type", offset := 4, type_goff := some 1 }

/-- Pointer to function returning `int`. -/
def C4ptrFn : Node :=
  { tag := "DW_TAG_pointer_type", offset := 5, type_goff := some 4 }

/-- Table for the declarator-precedence scenarios. -/
def C4tbl : NodeTable := [C4int, C4arr, C4ptrArr, C4subr, C4ptrFn]

/-- Typedef of a subroutine type with an array-typed formal parameter: the
parameter declarator is rendered with no name, hitting the `str + None`
concatenation of the array branch of `gen_decl`. -/
def C8typedef : Node :=
  { tag := "DW_TAG_typedef", offset := 1, name := some "F", nickname := some "F",
    type_goff := some 2 }

/-- The subroutine type of the C8 scenario. -/
def C8subr : Node :=
  { tag := "DW_TAG_subroutine_type", offset := 2, type_goff := some 5, deps := [3] }

/-- The array-typed formal parameter of the C8 scenario. -/
def C8param : Node :=
  { tag := "DW_TAG_formal_parameter", offset := 3, type_goff := some 4 }

/-- The array type of the C8 scenario. -/
def C8arr : Node :=
  { tag := "DW_TAG_array_type", offset := 4, type_goff := some 5, quantity := some 5 }

/-- Base type `int` of the C8 scenario. -/
def C8int : Node := { tag := "DW_TAG_base_type", offset := 5, name := some "int" }

/-- Table on which `explain` aborts with an uncaught `TypeError`. -/
def C8tbl : NodeTable := [C8typedef, C8subr, C8param, C8arr, C8int]

/-- Pointer to a const-qualified composite (the qualifier sits between the
pointer and the struct). -/
def C10ptrQ : Node := { tag := "DW_TAG_pointer_type", offset := 1, type_goff := some 2 }

/-- The const qualifier of the C10 scenario. -/
def C10const : Node := { tag := "DW_TAG_const_type", offset := 2, type_goff := some 3 }

/-- Pointer to an array of composites. -/
def C10ptrA : Node := { tag := "DW_TAG_pointer_type", offset := 4, type_goff := some 5 }

/-- The array of composites of the C10 scenario. -/
def C10arr : Node := { tag := "DW_TAG_array_type", offset := 5, type_goff := some 3 }

/-- Pointer to a C++ reference to a composite. -/
def C10ptrR : Node := { tag := "DW_TAG_pointer_type", offset := 6, type_goff := some 7 }

/-- The reference node of the C10 scenario. -/
def C10ref : Node := { tag := "DW_TAG_reference_type", offset := 7, type_goff := some 3 }

/-- The target composite of the C10 scenarios; nickname parametric. -/
def C10struct (nick : String) : Node :=
  { tag := "DW_TAG_structure_type", offset := 3, name := some nick, nickname := some nick }

/-- Table for the pointer-to-intermediate-to-composite scenarios. -/
def C10tbl (nick : String) : NodeTable :=
  [C10ptrQ, C10const, C10struct nick, C10ptrA, C10arr, C10ptrR, C10ref]

/-- Bare enumeration entity used to witness re-entry behaviour. -/
def W5enum : Node :=
  { tag := "DW_TAG_enumeration_type", offset := 21, name := some "E",
    nickname := some "E" }

/-- Composite with byte size 16 and no members (opaque-fallback witness). -/
def C7fallbackNode : Node :=
  { tag := "DW_TAG_structure_type", offset := 1, name := some "Opq",
    nickname := some "Opq", byte_size := some 16 }

/-- Struct named `X`, sharing its nickname with the enum `C9enum`. -/
def C9s : Node :=
  { tag := "DW_TAG_structure_type", offset := 30, name := some "X",
    nickname := some "X", byte_size := some 4 }

/-- Enum named `X`, sharing its nickname with the struct `C9s`. -/
def C9e : Node :=
  { tag := "DW_TAG_enumeration_type", offset := 31, name := some "X",
    nickname := some "X" }

/-- Enum `E` with a single enumerator `K` (collision-rename witness). -/
def C9e2 : Node :=
  { tag := "DW_TAG_enumeration_type", offset := 32, name := some "E",
    nickname := some "E", deps := [33] }

/-- The enumerator `K = 2` owned by `C9e2`. -/
def C9k : Node :=
  { tag := "DW_TAG_enumerator", offset := 33, name := some "K",
    nickname := some "K", quantity := some 2 }

/-- Table for the enumerator-collision witness. -/
def C9tbl : NodeTable := [C9e2, C9k]

/-! Helper lemmas about hexadecimal rendering and the status map. -/

theorem hexVal_hexDigit (d : Nat) (hd : d < 16) : hexVal (hexDigit d) = d := by
  interval_cases d <;> rfl

theorem decodeHex_append_singleton (l : List Char) (c : Char) :
    decodeHex (l ++ [c]) = 16 * decodeHex l + hexVal c := by
  simp [decodeHex, List.foldl_append]

theorem decodeHex_toHexChars : ∀ fuel n, n ≤ fuel → decodeHex (toHexChars fuel n) = n := by
  intro fuel
  induction fuel with
  | zero =>
    intro n hn
    interval_cases n
    rfl
  | succ f ih =>
    intro n hn
    by_cases h0 : n = 0
    · subst h0; simp [toHexChars, decodeHex]
    · have hdiv : n / 16 ≤ f := by
        have := Nat.div_lt_self (Nat.pos_of_ne_zero h0) (by norm_num : 1 < 16)
        omega
      have hmod : n % 16 < 16 := Nat.mod_lt _ (by norm_num)
      simp only [toHexChars, h0, if_false, decodeHex_append_singleton, ih _ hdiv,
        hexVal_hexDigit _ hmod]
      omega

theorem decodeHex_hexStr (n : Nat) : decodeHex (hexStr n).data = n := by
  by_cases h0 : n = 0
  · subst h0; rfl
  · simp only [hexStr, h0, if_false]
    exact decodeHex_toHexChars n n le_rfl

theorem hexStr_injective {a b : Nat} (h : hexStr a = hexStr b) : a = b := by
  have := congrArg (fun s => decodeHex s.data) h
  simpa [decodeHex_hexStr] using this

theorem append_hexStr_inj (p : String) (o₁ o₂ : Nat)
    (h : p ++ hexStr o₁ = p ++ hexStr o₂) : o₁ = o₂ := by
  have hd := congrArg String.data h
  simp only [String.data_append] at hd
  exact hexStr_injective (String.ext (List.append_cancel_left hd))

theorem append_ne_of_get5 (p₁ p₂ s₁ s₂ : String)
    (h₁ : 5 < p₁.data.length) (h₂ : 5 < p₂.data.length)
    (hne : p₁.data[5]? ≠ p₂.data[5]?) : p₁ ++ s₁ ≠ p₂ ++ s₂ := by
  intro h
  apply hne
  have hd := congrArg String.data h
  simp only [String.data_append] at hd
  calc p₁.data[5]? = (p₁.data ++ s₁.data)[5]? := (List.getElem?_append_left h₁).symm
    _ = (p₂.data ++ s₂.data)[5]? := by rw [hd]
    _ = p₂.data[5]? := List.getElem?_append_left h₂

theorem lookupShown_setShown (sh : Shown) (k : Option String) (v : String) :
    lookupShown (setShown sh k v) k = some v := by
  induction sh with
  | nil => simp [setShown, lookupShown]
  | cons hd t ih =>
    obtain ⟨k', v'⟩ := hd
    by_cases hk : k' = k
    · subst hk; simp [setShown, lookupShown]
    · simp [setShown, lookupShown, hk, ih]

theorem intercalateSingle (s a : String) : String.intercalate s [a] = a := rfl

theorem intercalateGoNil (a s : String) : String.intercalate.go a s [] = a := rfl

theorem toStringIntFive : toString (5 : Int) = "5" := rfl

set_option maxHeartbeats 4000000 in
set_option maxRecDepth 4000 in
/-- Claim C1 — cycle safety.  For every nickname `nick` and byte size `bs`,
running `explain` (which invokes `track`) on the table containing
`struct nick` with a single member of type pointer-to-itself terminates with
outcome `.ok` at the fixed fuel 4 (in particular no `recursionErr`: the
recursion depth is bounded independently of the input parameters), and the
output places the forward declaration `struct nick;…` at index 0, strictly
before the full definition, whose header comment, opening line, member line
and closing brace are lines 1–4. -/
theorem claim_C1_cycle_safety (nick : String) (bs : Nat) :
    explain (C1tbl nick bs) 4 (fun _ => true) =
      (["struct " ++ (nick ++ (";" ++ ("/* for GOFF0x1 " ++ (nick ++ " */")))),
        "\n/* GOFF0x1 @ _nowhere_ */",
        "struct " ++ (nick ++ (" \x7b" ++ ("\t/* " ++ ("size=0x" ++ (hexStr bs ++ " */"))))),
        "\t" ++ ("struct " ++ (nick ++ " *next;\t/* loc=0x0 */")),
        "\x7d;"],
       .ok ()) := by
  simp [explain, C1tbl, C1struct, C1member, C1ptr, track, gen_decl, get_node,
    lookupTag, lookupQual, TAGS_for_types, TAGS_for_qualifiers, lookupShown, setShown,
    src_location, pyShowOpt, pyTruthy, hexStr, toHexChars, hexDigit, wrapParse,
    intercalateSingle, String.append_assoc]

set_option maxHeartbeats 4000000 in
set_option maxRecDepth 4000 in
/-- Claim C3 — evaluation of the code at the failing input.  First conjunct:
on a table whose first symbol is a typedef of a C++ reference to a pointer
with a dangling target, the wrapped `ParseError` raised under the reference
edge hits the bare `except:` of the reference branch, whose re-raise
expression reads the unbound variable `e`; the resulting
`UnboundLocalError` (a `NameError`, not a `ParseError`) is not caught by
`explain`, the whole pass aborts, and the healthy `struct A` later in the
table is never emitted — contradicting the claimed per-symbol isolation.
Second conjunct, for contrast: when the failure happens under a member →
pointer edge, it is wrapped with context, caught at the per-symbol
boundary, reported as a skip notice, and `struct A` is still emitted. -/
theorem claim_C3_reference_edge_aborts_run :
    explain C3tbl 10 (fun _ => true) =
      ([], .error (.nameErr "local variable 'e' referenced before assignment")) ∧
    explain C3btbl 10 (fun _ => true) =
      (["/* skipped GOFF=0x1 DW_TAG_structure_type 'B' at _nowhere_: failed to track a member DW_TAG_pointer_type 'p' pointer -> no node for GOFF=0x3e7 */",
        "\n/* GOFF0x4 @ _nowhere_ */", "struct A \x7b\t/* size=0x4 */",
        "\tchar dummy[0x4];", "\x7d;"],
       .ok ()) :=
  ⟨rfl, rfl⟩

/-- Claim C4 — counterexample.  `gen_decl` on pointer-to-array-of-5-int with
inner declarator `x` renders `int *x[5]` (an array of pointers in C
declarator grammar, since no parentheses are placed around `*x` before the
`[5]` suffix is appended) and not the claimed `int (*x)[N]` form. -/
theorem claim_C4_counterexample :
    gen_decl C4tbl 10 (some C4ptrArr) (some "x") = .ok "int *x[5]" ∧
      "int *x[5]" ≠ "int (*x)[5]" :=
  ⟨rfl, by decide⟩

set_option maxHeartbeats 4000000 in
set_option maxRecDepth 4000 in
/-- Claim C4 — amended.  `gen_decl` parenthesizes the `*name` fragment only
before a function suffix: pointer-to-function renders `int (*name)(void)`,
following C declarator precedence, while pointer-to-array renders
`int *name[5]` with no parenthesization, not following it (this matches the
array rule of the spec's component design, which appends `[N]` directly
after the name). -/
theorem claim_C4_amended (nm : String) :
    gen_decl C4tbl 4 (some C4ptrFn) (some nm) =
      .ok ("int (" ++ ("*" ++ (nm ++ ")(void)"))) ∧
    gen_decl C4tbl 4 (some C4ptrArr) (some nm) =
      .ok ("int " ++ ("*" ++ (nm ++ "[5]"))) := by
  constructor <;>
    simp [C4tbl, C4int, C4arr, C4ptrArr, C4subr, C4ptrFn, gen_decl, get_node,
      lookupTag, lookupQual, TAGS_for_types, TAGS_for_qualifiers, pyTruthy,
      String.append_assoc, String.intercalate, intercalateGoNil, toStringIntFive]

set_option maxHeartbeats 4000000 in
set_option maxRecDepth 4000 in
/-- Claim C8 — partiality of `gen_decl` at `name = None`.  First two
conjuncts: a `DW_TAG_array_type` and a `DW_TAG_subroutine_type` node
rendered with no inner declarator raise `TypeError` (the `str + None`
concatenation), not `ParseError`.  Third conjunct: a subroutine type with an
array-typed formal parameter reaches exactly this failure (parameters are
rendered with no name), and since `explain` catches only `ParseError`, the
`TypeError` escapes the per-symbol boundary and aborts the whole pass right
after the typedef's header comment was printed. -/
theorem claim_C8_gen_decl_partial_on_none_name :
    gen_decl C8tbl 10 (some C8arr) none =
      .error (.typeErr "can only concatenate str (not \"NoneType\") to str") ∧
    gen_decl C4tbl 10 (some C4subr) none =
      .error (.typeErr "can only concatenate str (not \"NoneType\") to str") ∧
    explain C8tbl 10 (fun _ => true) =
      (["\n/*  GOFF0x1 @ _nowhere_, define GOFF0x2 as 'F' */"],
       .error (.typeErr "can only concatenate str (not \"NoneType\") to str")) :=
  ⟨rfl, rfl, rfl⟩

set_option maxHeartbeats 4000000 in
set_option maxRecDepth 4000 in
/-- Claim C10 — the `maybe_incomplete` flag set by a pointer edge stops at
the pointer's immediate target.  For every nickname, when the pointee is a
qualifier (`const`), an array, or a C++ reference whose underlying type is a
composite with no prior status entry and an empty traversal stack, `track`
on the pointer emits the composite's full definition (header comment,
`struct nick \x7b`, `\x7d;`) and records it `defined` — not a forward
declaration. -/
theorem claim_C10_pointer_incompleteness_not_transitive (nick : String) :
    track (C10tbl nick) 4 (some C10ptrQ) [] [] false =
      (["\n/* GOFF0x3 @ _nowhere_ */", "struct " ++ (nick ++ " \x7b"), "\x7d;"],
       [(some nick, "defined")], .ok ()) ∧
    track (C10tbl nick) 4 (some C10ptrA) [] [] false =
      (["\n/* GOFF0x3 @ _nowhere_ */", "struct " ++ (nick ++ " \x7b"), "\x7d;"],
       [(some nick, "defined")], .ok ()) ∧
    track (C10tbl nick) 4 (some C10ptrR) [] [] false =
      (["\n/* GOFF0x3 @ _nowhere_ */", "struct " ++ (nick ++ " \x7b"), "\x7d;"],
       [(some nick, "defined")], .ok ()) := by
  refine ⟨?_, ?_, ?_⟩ <;>
    simp [C10tbl, C10ptrQ, C10const, C10struct, C10ptrA, C10arr, C10ptrR, C10ref,
      track, gen_decl, get_node, lookupTag, lookupQual, TAGS_for_types,
      TAGS_for_qualifiers, lookupShown, setShown, src_location, pyShowOpt, pyTruthy,
      hexStr, toHexChars, hexDigit, wrapParse, String.append_assoc]

set_option maxHeartbeats 4000000 in
set_option maxRecDepth 4000 in
/-- Claim C2 — counterexample.  On the table where the single member of
`struct S` has type `S` itself, the source's `track` emits a forward
declaration `struct S;…` during the member recursion — at that moment the
entity's status is not `defined`, otherwise the composite branch would have
returned silently — while the specification-faithful variant
`trackSpecEarlyMark`, which records the entity fully-defined *before*
recursing into members, emits no such line.  The two runs differ, refuting
the claimed marking order. -/
theorem claim_C2_counterexample :
    track C2tbl 10 (some C2struct) [] [] false =
      (["struct S;/* for GOFF0x1 S */", "\n/* GOFF0x1 @ _nowhere_ */",
        "struct S \x7b\t/* size=0x4 */", "\tstruct S m;\t/* loc=0x0 */", "\x7d;"],
       [(some "S", "defined")], .ok ()) ∧
    trackSpecEarlyMark C2tbl 10 (some C2struct) [] [] false =
      (["\n/* GOFF0x1 @ _nowhere_ */", "struct S \x7b\t/* size=0x4 */",
        "\tstruct S m;\t/* loc=0x0 */", "\x7d;"],
       [(some "S", "defined")], .ok ()) ∧
    (track C2tbl 10 (some C2struct) [] [] false).1 ≠
      (trackSpecEarlyMark C2tbl 10 (some C2struct) [] [] false).1 :=
  ⟨rfl, rfl, by decide⟩

set_option maxHeartbeats 4000000 in
set_option maxRecDepth 4000 in
/-- Claim C2 — amended.  What the composite branch of `track` actually does:
(first conjunct) when the entity is re-entered while already on the
traversal stack — which is how a member pointing back to the same type
arrives, since the status map does not yet say `defined` — it emits a
forward declaration annotated with its parent and records `declared`;
(second conjunct) a successful non-forward visit records `defined` in the
emission-status map only by the end of the branch, after the full aggregate
has been emitted. -/
theorem claim_C2_amended :
    (∀ (tbl : NodeTable) (f : Nat) (nd p : Node) (sh : Shown) (stk : List Node)
      (mi : Bool) (nick : String),
      (nd.tag = "DW_TAG_structure_type" ∨ nd.tag = "DW_TAG_class_type" ∨
        nd.tag = "DW_TAG_union_type") →
      nd.nickname = some nick →
      lookupShown sh (some nick) ≠ some "defined" →
      nd ∈ stk → stk.getLast? = some p →
      track tbl (f + 2) (some nd) sh stk mi =
        ([(lookupTag TAGS_for_types nd.tag).join.getD "" ++ " " ++
            (nick ++ (";" ++ ("/* for GOFF0x" ++
              (hexStr p.offset ++ (" " ++ (pyShowOpt p.nickname ++ " */"))))))],
         setShown sh (some nick) "declared", .ok ())) ∧
    (∀ (tbl : NodeTable) (f : Nat) (nd : Node) (sh : Shown) (stk : List Node)
      (out1 : List String) (sh1 : Shown),
      (nd.tag = "DW_TAG_structure_type" ∨ nd.tag = "DW_TAG_class_type" ∨
        nd.tag = "DW_TAG_union_type") →
      nd.is_decl = false → nd ∉ stk →
      track tbl (f + 1) (some nd) sh stk false = (out1, sh1, .ok ()) →
      lookupShown sh1 nd.nickname = some "defined") := by
  constructor
  · intro tbl f nd p sh stk mi nick htag hnick hcur hstk hlast
    rcases htag with h | h | h <;>
      simp [track, gen_decl, h, hnick, hcur, hstk, hlast,
        lookupQual, TAGS_for_qualifiers, lookupTag, TAGS_for_types, pyTruthy,
        String.append_assoc]
  · intro tbl f nd sh stk out1 sh1 htag hdecl hstk htrack
    rcases htag with h | h | h
    · simp [track, h, hdecl, hstk, lookupQual, TAGS_for_qualifiers] at htrack
      split at htrack
      · next hcur =>
        simp only [Prod.mk.injEq] at htrack
        obtain ⟨-, h2, -⟩ := htrack
        subst h2
        exact hcur
      · split at htrack
        · simp at htrack
        · split at htrack
          · simp at htrack
          · simp only [Prod.mk.injEq] at htrack
            obtain ⟨-, h2, -⟩ := htrack
            subst h2
            exact lookupShown_setShown _ _ _
    · simp [track, h, hdecl, hstk, lookupQual, TAGS_for_qualifiers] at htrack
      split at htrack
      · next hcur =>
        simp only [Prod.mk.injEq] at htrack
        obtain ⟨-, h2, -⟩ := htrack
        subst h2
        exact hcur
      · split at htrack
        · simp at htrack
        · split at htrack
          · simp at htrack
          · simp only [Prod.mk.injEq] at htrack
            obtain ⟨-, h2, -⟩ := htrack
            subst h2
            exact lookupShown_setShown _ _ _
    · simp [track, h, hdecl, hstk, lookupQual, TAGS_for_qualifiers] at htrack
      split at htrack
      · next hcur =>
        simp only [Prod.mk.injEq] at htrack
        obtain ⟨-, h2, -⟩ := htrack
        subst h2
        exact hcur
      · split at htrack
        · simp at htrack
        · split at htrack
          · simp at htrack
          · simp only [Prod.mk.injEq] at htrack
            obtain ⟨-, h2, -⟩ := htrack
            subst h2
            exact lookupShown_setShown _ _ _

set_option maxHeartbeats 4000000 in
set_option maxRecDepth 4000 in
/-- Witness for the amended C2 theorem: on the self-member table, re-entry
of `struct S` with `[C2struct]` on the stack emits exactly the annotated
forward declaration and records `declared`; and after the successful
top-level run on that table the status map holds `defined` for `S`. -/
theorem claim_C2_amended_witness :
    track C2tbl 4 (some C2struct) [] [C2struct] false =
      (["struct S;/* for GOFF0x1 S */"], [(some "S", "declared")], .ok ()) ∧
    lookupShown (track C2tbl 4 (some C2struct) [] [] false).2.1 (some "S") =
      some "defined" := by
  constructor
  · have h := claim_C2_amended.1 C2tbl 2 C2struct C2struct [] [C2struct] false "S"
      (Or.inl rfl) rfl (by decide) (by decide) rfl
    simpa [lookupTag, TAGS_for_types, hexStr, toHexChars, hexDigit, pyShowOpt] using h
  · exact claim_C2_amended.2 C2tbl 3 C2struct [] [] _ _ (Or.inl rfl) rfl (by decide) rfl

set_option maxHeartbeats 4000000 in
set_option maxRecDepth 4000 in
/-- Claim C5 — idempotence.  First three conjuncts: re-entering an entity
whose status-map entry already exists (`defined` for composites; any entry
for enumerations; any entry under the `typedef `-prefixed key for typedefs)
is a no-op: no output, status map unchanged.  Fourth conjunct: for a
composite that is not declaration-only and not on the traversal stack, after
any successful top-level `track` call a second call with the resulting
status map is such a no-op — so two invocations within one `explain` run
print the full definition exactly once. -/
theorem claim_C5_idempotence :
    (∀ (tbl : NodeTable) (f : Nat) (nd : Node) (sh : Shown) (stk : List Node) (mi : Bool),
      (nd.tag = "DW_TAG_structure_type" ∨ nd.tag = "DW_TAG_class_type" ∨
        nd.tag = "DW_TAG_union_type") →
      lookupShown sh nd.nickname = some "defined" →
      track tbl (f + 1) (some nd) sh stk mi = ([], sh, .ok ())) ∧
    (∀ (tbl : NodeTable) (f : Nat) (nd : Node) (sh : Shown) (stk : List Node) (mi : Bool),
      nd.tag = "DW_TAG_enumeration_type" →
      (lookupShown sh nd.nickname).isSome = true →
      track tbl (f + 1) (some nd) sh stk mi = ([], sh, .ok ())) ∧
    (∀ (tbl : NodeTable) (f : Nat) (nd : Node) (nick : String) (sh : Shown)
      (stk : List Node) (mi : Bool),
      nd.tag = "DW_TAG_typedef" → nd.nickname = some nick →
      (lookupShown sh (some ("typedef " ++ nick))).isSome = true →
      track tbl (f + 1) (some nd) sh stk mi = ([], sh, .ok ())) ∧
    (∀ (tbl : NodeTable) (f : Nat) (nd : Node) (sh : Shown) (stk : List Node)
      (out1 : List String) (sh1 : Shown),
      (nd.tag = "DW_TAG_structure_type" ∨ nd.tag = "DW_TAG_class_type" ∨
        nd.tag = "DW_TAG_union_type") →
      nd.is_decl = false → nd ∉ stk →
      track tbl (f + 1) (some nd) sh stk false = (out1, sh1, .ok ()) →
      track tbl (f + 1) (some nd) sh1 stk false = ([], sh1, .ok ())) := by
  refine ⟨?_, ?_, ?_, ?_⟩
  · intro tbl f nd sh stk mi htag hdef
    rcases htag with h | h | h <;>
      simp [track, h, hdef, lookupQual, TAGS_for_qualifiers]
  · intro tbl f nd sh stk mi htag hmem
    simp [track, htag, hmem, lookupQual, TAGS_for_qualifiers]
  · intro tbl f nd nick sh stk mi htag hnick hmem
    simp [track, htag, hnick, hmem, lookupQual, TAGS_for_qualifiers]
  · intro tbl f nd sh stk out1 sh1 htag hdecl hstk htrack
    have hd : lookupShown sh1 nd.nickname = some "defined" := by
      rcases htag with h | h | h
      · simp [track, h, hdecl, hstk, lookupQual, TAGS_for_qualifiers] at htrack
        split at htrack
        · next hcur =>
          simp only [Prod.mk.injEq] at htrack
          obtain ⟨-, h2, -⟩ := htrack
          subst h2
          exact hcur
        · split at htrack
          · simp at htrack
          · split at htrack
            · simp at htrack
            · simp only [Prod.mk.injEq] at htrack
              obtain ⟨-, h2, -⟩ := htrack
              subst h2
              exact lookupShown_setShown _ _ _
      · simp [track, h, hdecl, hstk, lookupQual, TAGS_for_qualifiers] at htrack
        split at htrack
        · next hcur =>
          simp only [Prod.mk.injEq] at htrack
          obtain ⟨-, h2, -⟩ := htrack
          subst h2
          exact hcur
        · split at htrack
          · simp at htrack
          · split at htrack
            · simp at htrack
            · simp only [Prod.mk.injEq] at htrack
              obtain ⟨-, h2, -⟩ := htrack
              subst h2
              exact lookupShown_setShown _ _ _
      · simp [track, h, hdecl, hstk, lookupQual, TAGS_for_qualifiers] at htrack
        split at htrack
        · next hcur =>
          simp only [Prod.mk.injEq] at htrack
          obtain ⟨-, h2, -⟩ := htrack
          subst h2
          exact hcur
        · split at htrack
          · simp at htrack
          · split at htrack
            · simp at htrack
            · simp only [Prod.mk.injEq] at htrack
              obtain ⟨-, h2, -⟩ := htrack
              subst h2
              exact lookupShown_setShown _ _ _
    rcases htag with h | h | h <;>
      simp [track, h, hd, lookupQual, TAGS_for_qualifiers]

set_option maxHeartbeats 4000000 in
set_option maxRecDepth 4000 in
/-- Witness for C5: a `defined` struct, an already-present enum, an
already-present typedef are all no-ops; and on the one-struct table the
second of two consecutive top-level `track` calls on `struct A` emits
nothing. -/
theorem claim_C5_idempotence_witness :
    track [] 1 (some C3ok) [(some "A", "defined")] [] false =
      ([], [(some "A", "defined")], .ok ()) ∧
    track [] 1 (some W5enum) [(some "E", "declared")] [] false =
      ([], [(some "E", "declared")], .ok ()) ∧
    track [] 1 (some C8typedef) [(some "typedef F", "defined")] [] false =
      ([], [(some "typedef F", "defined")], .ok ()) ∧
    track [C3ok] 3 (some C3ok) [(some "A", "defined")] [] false =
      ([], [(some "A", "defined")], .ok ()) := by
  refine ⟨?_, ?_, ?_, ?_⟩
  · exact claim_C5_idempotence.1 [] 0 C3ok [(some "A", "defined")] [] false
      (Or.inl rfl) rfl
  · exact claim_C5_idempotence.2.1 [] 0 W5enum [(some "E", "declared")] [] false rfl rfl
  · exact claim_C5_idempotence.2.2.1 [] 0 C8typedef "F" [(some "typedef F", "defined")] []
      false rfl rfl rfl
  · exact claim_C5_idempotence.2.2.2 [C3ok] 2 C3ok [] []
      ["\n/* GOFF0x4 @ _nowhere_ */", "struct A \x7b\t/* size=0x4 */",
        "\tchar dummy[0x4];", "\x7d;"]
      [(some "A", "defined")] (Or.inl rfl) rfl (by decide) rfl

set_option maxHeartbeats 4000000 in
set_option maxRecDepth 4000 in
/-- Claim C7 — opaque fallback.  Any composite entity with a known byte size
`n`, an empty dependent-children list, not declaration-only, not on the
traversal stack and not yet fully defined is emitted as a full definition
whose body consists of exactly one member line, the opaque byte array
`char dummy[0xn];`, and it is recorded `defined`. -/
theorem claim_C7_opaque_fallback (tbl : NodeTable) (f : Nat) (nd : Node) (sh : Shown)
    (stk : List Node) (nick : String) (n : Nat)
    (htag : nd.tag = "DW_TAG_structure_type" ∨ nd.tag = "DW_TAG_class_type" ∨
      nd.tag = "DW_TAG_union_type")
    (hnick : nd.nickname = some nick) (hdeps : nd.deps = [])
    (hbs : nd.byte_size = some n) (hdecl : nd.is_decl = false) (hstk : nd ∉ stk)
    (hcur : lookupShown sh (some nick) ≠ some "defined") :
    track tbl (f + 2) (some nd) sh stk false =
      (["\n/* GOFF0x" ++ (hexStr nd.offset ++ (" @ " ++ (src_location nd ++ " */"))),
        (lookupTag TAGS_for_types nd.tag).join.getD "" ++ " " ++
          (nick ++ (" \x7b" ++ ("\t/* " ++ ("size=0x" ++ (hexStr n ++ " */"))))),
        "\tchar dummy[0x" ++ (hexStr n ++ "];"),
        "\x7d;"],
       setShown sh (some nick) "defined", .ok ()) := by
  rcases htag with h | h | h <;>
    simp [track, gen_decl, h, hnick, hdeps, hbs, hdecl, hstk, hcur,
      lookupQual, TAGS_for_qualifiers, lookupTag, TAGS_for_types, pyTruthy,
      intercalateSingle, String.append_assoc]

set_option maxHeartbeats 4000000 in
set_option maxRecDepth 4000 in
/-- Witness for C7: the composite of byte size 16 produces the 16-byte
padding array `char dummy[0x10];` as its only member line. -/
theorem claim_C7_opaque_fallback_witness :
    track [C7fallbackNode] 2 (some C7fallbackNode) [] [] false =
      (["\n/* GOFF0x1 @ _nowhere_ */", "struct Opq \x7b\t/* size=0x10 */",
        "\tchar dummy[0x10];", "\x7d;"],
       [(some "Opq", "defined")], .ok ()) := by
  have h := claim_C7_opaque_fallback [C7fallbackNode] 0 C7fallbackNode [] [] "Opq" 16
    (Or.inl rfl) rfl rfl rfl rfl (by decide) (by decide)
  simpa [C7fallbackNode, lookupTag, TAGS_for_types, src_location, hexStr, toHexChars,
    hexDigit, setShown] using h

set_option maxHeartbeats 4000000 in
set_option maxRecDepth 4000 in
/-- Claim C9 — one shared name-keyed status map.  First two conjuncts: a
composite and an enumeration carrying the same nickname use the same entry,
so once that entry says `defined` (whichever of the two was tracked first
put it there), tracking the other is a no-op that emits nothing.  Third
conjunct: an enumeration whose single enumerator's name is already a key of
the status map emits that enumerator renamed with the owning enumeration's
identity offset (`name__GOFF0x<offset>`) and records the renamed key. -/
theorem claim_C9_shared_status_map :
    (∀ (tbl : NodeTable) (f : Nat) (sNd eNd : Node) (nick : String) (sh : Shown)
      (stk : List Node) (mi : Bool),
      (sNd.tag = "DW_TAG_structure_type" ∨ sNd.tag = "DW_TAG_class_type" ∨
        sNd.tag = "DW_TAG_union_type") →
      eNd.tag = "DW_TAG_enumeration_type" →
      sNd.nickname = some nick → eNd.nickname = some nick →
      lookupShown sh (some nick) = some "defined" →
      track tbl (f + 1) (some sNd) sh stk mi = ([], sh, .ok ()) ∧
      track tbl (f + 1) (some eNd) sh stk mi = ([], sh, .ok ())) ∧
    (∀ (tbl : NodeTable) (f : Nat) (nd child : Node) (sh : Shown) (stk : List Node)
      (mi : Bool) (cOff : Nat) (cname nick : String) (q : Int),
      nd.tag = "DW_TAG_enumeration_type" →
      nd.nickname = some nick → nd.deps = [cOff] →
      lookupShown sh (some nick) = none →
      get_node tbl (some cOff) = .ok (some child) →
      child.name = some cname → child.quantity = some q →
      (lookupShown sh (some cname)).isSome = true →
      track tbl (f + 2) (some nd) sh stk mi =
        (["\n/* GOFF0x" ++ (hexStr nd.offset ++ (" @ " ++ (src_location nd ++ " */"))),
          "enum " ++ (nick ++ " \x7b"),
          "\t" ++ (cname ++ ("__GOFF0x" ++ (hexStr nd.offset ++ (" = " ++ toString q)))),
          "\x7d;"],
         setShown (setShown sh (some (cname ++ ("__GOFF0x" ++ hexStr nd.offset)))
           "defined") (some nick) "defined",
         .ok ())) := by
  constructor
  · intro tbl f sNd eNd nick sh stk mi htagS htagE hnickS hnickE hdef
    constructor
    · rcases htagS with h | h | h <;>
        simp [track, h, hnickS, hdef, lookupQual, TAGS_for_qualifiers]
    · simp [track, htagE, hnickE, hdef, lookupQual, TAGS_for_qualifiers]
  · intro tbl f nd child sh stk mi cOff cname nick q htag hnick hdeps hcur hget hcn hq hcoll
    simp [track, gen_decl, htag, hnick, hdeps, hcur, hget, hcn, hq, hcoll,
      lookupQual, TAGS_for_qualifiers, lookupTag, TAGS_for_types, pyTruthy,
      pyShowOpt, pyShowOptInt, intercalateSingle, String.append_assoc]

set_option maxHeartbeats 4000000 in
set_option maxRecDepth 4000 in
/-- Witness for C9: with `X` already `defined`, both the struct `X` and the
enum `X` are no-ops; and the enum `E` whose enumerator `K` collides with an
existing key emits `K__GOFF0x20 = 2` and records `K__GOFF0x20`. -/
theorem claim_C9_shared_status_map_witness :
    track C9tbl 1 (some C9s) [(some "X", "defined")] [] false =
      ([], [(some "X", "defined")], .ok ()) ∧
    track C9tbl 1 (some C9e) [(some "X", "defined")] [] false =
      ([], [(some "X", "defined")], .ok ()) ∧
    track C9tbl 2 (some C9e2) [(some "K", "defined")] [] false =
      (["\n/* GOFF0x20 @ _nowhere_ */", "enum E \x7b", "\tK__GOFF0x20 = 2", "\x7d;"],
       [(some "K", "defined"), (some "K__GOFF0x20", "defined"), (some "E", "defined")],
       .ok ()) := by
  refine ⟨?_, ?_, ?_⟩
  · exact (claim_C9_shared_status_map.1 C9tbl 0 C9s C9e "X" [(some "X", "defined")] []
      false (Or.inl rfl) rfl rfl rfl rfl).1
  · exact (claim_C9_shared_status_map.1 C9tbl 0 C9s C9e "X" [(some "X", "defined")] []
      false (Or.inl rfl) rfl rfl rfl rfl).2
  · have h := claim_C9_shared_status_map.2 C9tbl 0 C9e2 C9k [(some "K", "defined")] []
      false 33 "K" "E" 2 rfl rfl rfl rfl rfl rfl rfl rfl
    simpa [C9e2, C9k, src_location, hexStr, toHexChars, hexDigit, setShown,
      lookupShown] using h

/-- Claim C6 — counterexample.  `build_node` registers every entity,
including anonymous pointers and arrays, but `gen_nickname` synthesizes a
name only for tags whose `TAGS_for_types` keyword is non-`None`: an
anonymous pointer entity gets nickname `None`, and so does an array entity
whose declared name contains an illegal character — so the nickname is not
always present and non-empty. -/
theorem claim_C6_counterexample :
    gen_nickname "DW_TAG_pointer_type" (build_name none) 77 = none ∧
    gen_nickname "DW_TAG_array_type" (build_name (some "foo$bar")) 78 = none :=
  ⟨rfl, rfl⟩

set_option maxHeartbeats 1000000 in
/-- Claim C6 — amended.  First conjunct: a truthy declared name made only of
characters the `badchars` regex allows is kept as the nickname.  Second
conjunct: for the five keyworded kinds (enum, struct, class, typedef,
union), an anonymous entity receives the deterministic synthetic nickname
`anon_<keyword>__GOFF0x<offset>`, which is never empty.  Third conjunct:
two anonymous entities of keyworded kinds at different identity offsets
never share a nickname (for the remaining kinds the nickname is `None`, as
the counterexample shows). -/
theorem claim_C6_amended :
    (∀ (tag : String) (off : Nat) (s : String),
      s ≠ "" → is_invalid_name s = false →
      gen_nickname tag (build_name (some s)) off = some s) ∧
    (∀ (tag kw : String) (off : Nat) (name : Option String),
      pyTruthy name = false →
      lookupTag TAGS_for_types tag = some (some kw) →
      gen_nickname tag name off = some ("anon_" ++ kw ++ "__GOFF0x" ++ hexStr off)) ∧
    (∀ (kw : String) (off : Nat), ("anon_" ++ kw ++ "__GOFF0x" ++ hexStr off) ≠ "") ∧
    (∀ (t₁ t₂ : String) (o₁ o₂ : Nat) (n₁ n₂ : Option String),
      pyTruthy n₁ = false → pyTruthy n₂ = false →
      (t₁ = "DW_TAG_enumeration_type" ∨ t₁ = "DW_TAG_structure_type" ∨
        t₁ = "DW_TAG_class_type" ∨ t₁ = "DW_TAG_typedef" ∨ t₁ = "DW_TAG_union_type") →
      (t₂ = "DW_TAG_enumeration_type" ∨ t₂ = "DW_TAG_structure_type" ∨
        t₂ = "DW_TAG_class_type" ∨ t₂ = "DW_TAG_typedef" ∨ t₂ = "DW_TAG_union_type") →
      o₁ ≠ o₂ →
      gen_nickname t₁ n₁ o₁ ≠ gen_nickname t₂ n₂ o₂) := by
  refine ⟨?_, ?_, ?_, ?_⟩
  · intro tag off s hs hinv
    simp [gen_nickname, build_name, pyTruthy, hs, hinv]
  · intro tag kw off name hn hkw
    simp [gen_nickname, hn, hkw]
  · intro kw off h
    have hl := congrArg String.length h
    simp only [String.length_append] at hl
    have h5 : ("anon_" : String).length = 5 := rfl
    have h8 : ("__GOFF0x" : String).length = 8 := rfl
    have h0 : ("" : String).length = 0 := rfl
    omega
  · intro t₁ t₂ o₁ o₂ n₁ n₂ hn1 hn2 ht1 ht2 ho
    rcases ht1 with rfl | rfl | rfl | rfl | rfl <;>
      rcases ht2 with rfl | rfl | rfl | rfl | rfl <;>
      simp [gen_nickname, hn1, hn2, lookupTag, TAGS_for_types] <;>
      first
      | exact fun hh => ho (append_hexStr_inj _ _ _ hh)
      | exact fun hh => ho (hexStr_injective hh)
      | (apply append_ne_of_get5 <;> decide)

/-- Witness for the amended C6 theorem: a valid name is kept; an anonymous
union gets the synthetic nickname, which is nonempty; and an anonymous
struct at offset 7 and an anonymous enum at offset 8 get distinct
nicknames. -/
theorem claim_C6_amended_witness :
    gen_nickname "DW_TAG_structure_type" (build_name (some "point")) 5 = some "point" ∧
    gen_nickname "DW_TAG_union_type" none 6 =
      some ("anon_" ++ "union" ++ "__GOFF0x" ++ hexStr 6) ∧
    ("anon_" ++ "union" ++ "__GOFF0x" ++ hexStr 6) ≠ "" ∧
    gen_nickname "DW_TAG_structure_type" none 7 ≠
      gen_nickname "DW_TAG_enumeration_type" none 8 := by
  refine ⟨?_, ?_, ?_, ?_⟩
  · exact claim_C6_amended.1 "DW_TAG_structure_type" 5 "point" (by decide) (by decide)
  · exact claim_C6_amended.2.1 "DW_TAG_union_type" "union" 6 none rfl rfl
  · exact claim_C6_amended.2.2.1 "union" 6
  · exact claim_C6_amended.2.2.2 _ _ 7 8 none none rfl rfl
      (Or.inr (Or.inl rfl)) (Or.inl rfl) (by decide)
